import Mathlib

/-! stopforumspam: request construction, validation and response interpretation.

A shallow embedding of `src/index.js`.  The module keeps one piece of mutable
state (`options.apiKey`) and talks to two collaborators, the form-posting HTTP
client `request.post` and `JSON.parse`.  Both collaborators are parameters of
the embedded functions; what a call does is recorded in an `Outcome`: the
requests handed to the HTTP client, the arguments the callback was invoked
with, and the exception (if any) that left the response handler.
-/

namespace StopForumSpam

/-! ## Values -/

/-- JavaScript values that the key accessor can be given and that a form can
hold: `undefined`, `null`, booleans, integral numbers, `NaN` and strings. -/
inductive JsVal where
  | undefined
  | null
  | bool (b : Bool)
  | num (n : Int)
  | nan
  | str (s : String)
  deriving DecidableEq, Repr

/-- The boolean a JavaScript value converts to under `!!v`. -/
def JsVal.truthy : JsVal → Bool
  | .undefined => false
  | .null => false
  | .bool b => b
  | .num n => decide (n ≠ 0)
  | .nan => false
  | .str s => decide (s ≠ "")

/-- An `Error` object: its `name` (`Error`, `SyntaxError`, `TypeError`) and its `message`. -/
structure JsError where
  name : String
  message : String
  deriving DecidableEq, Repr

/-- The expression `new Error(message)`. -/
def newError (message : String) : JsError := ⟨"Error", message⟩

/-- A value produced by `JSON.parse`.  Numbers are kept as integers, for which
truthiness (`n ≠ 0`) is exact; an object is the sequence of its members. -/
inductive Json where
  | null
  | bool (b : Bool)
  | num (n : Int)
  | str (s : String)
  | arr (items : List Json)
  | obj (members : List (String × Json))
  deriving Repr

/-- The boolean `!!j` of a parsed value; arrays and objects are always truthy. -/
def Json.truthy : Json → Bool
  | .null => false
  | .bool b => b
  | .num n => decide (n ≠ 0)
  | .str s => decide (s ≠ "")
  | .arr _ => true
  | .obj _ => true

/-- The member named `name` of an object: where a name occurs twice the later member wins. -/
def lastMember (name : String) : List (String × Json) → Option Json
  | [] => none
  | (k, v) :: rest =>
    match lastMember name rest with
    | some w => some w
    | none => if k = name then some v else none

/-- The property read `jsBody[name]`, for a name that no built-in prototype defines
(the registry names).  Reading a property of `null` throws a `TypeError`; a
boolean, number, string or array has no such property (`none` is `undefined`). -/
def Json.getProp (jsBody : Json) (name : String) : Except JsError (Option Json) :=
  match jsBody with
  | .null => .error ⟨"TypeError", "Cannot read properties of null (reading '" ++ name ++ "')"⟩
  | .obj members => .ok (lastMember name members)
  | _ => .ok none

/-- The boolean `!!x` of a property that may be `undefined`. -/
def propTruthy : Option Json → Bool
  | none => false
  | some j => j.truthy

/-! ## Text encoding -/

/-- The UTF-8 octets of one code point. -/
def utf8Octets (c : Nat) : List Nat :=
  if c < 0x80 then [c]
  else if c < 0x800 then [0xC0 + c / 64, 0x80 + c % 64]
  else if c < 0x10000 then [0xE0 + c / 4096, 0x80 + c / 64 % 64, 0x80 + c % 64]
  else [0xF0 + c / 262144, 0x80 + c / 4096 % 64, 0x80 + c / 64 % 64, 0x80 + c % 64]

/-- The function `utf8.encode` of the `utf8` package: the byte string of `s`, a
string with one character (of code 0 to 255) for each UTF-8 octet of `s`. -/
def utf8.encode (s : String) : String :=
  String.mk ((s.data.flatMap fun c => utf8Octets c.toNat).map Char.ofNat)

/-- The upper-case hexadecimal digit of a number below sixteen. -/
def hexDigit (n : Nat) : Char :=
  if n < 10 then Char.ofNat (48 + n) else Char.ofNat (55 + n)

/-- The escape `%XX` of one octet. -/
def percentEscape (b : Nat) : List Char :=
  [Char.ofNat 37, hexDigit (b / 16), hexDigit (b % 16)]

/-- The characters `encodeURIComponent` leaves alone: ASCII letters, digits and
the marks `- _ . ! ~ * ' ( )`. -/
def uriUnescaped (c : Nat) : Bool :=
  (65 ≤ c && c ≤ 90) || (97 ≤ c && c ≤ 122) || (48 ≤ c && c ≤ 57) ||
  c = 45 || c = 95 || c = 46 || c = 33 || c = 126 || c = 42 || c = 39 || c = 40 || c = 41

/-- What `encodeURIComponent` writes for one character of its argument: the
character itself, or the escapes of the octets of its UTF-8 encoding. -/
def encodeURIChar (c : Char) : List Char :=
  if uriUnescaped c.toNat then [c] else (utf8Octets c.toNat).flatMap percentEscape

/-- The built-in `encodeURIComponent`. -/
def encodeURIComponent (s : String) : String :=
  String.mk (s.data.flatMap encodeURIChar)

/-- The expression `encodeURIComponent(utf8.encode(v))` that both `isSpammer` and
`submit` put into a form field. -/
def encodeField (v : String) : String :=
  encodeURIComponent (utf8.encode v)

/-- The percent-encoded form of the UTF-8 octets of `v`, as the specification words
it: every octet once, as an unreserved ASCII character or as one `%XX` escape. -/
def percentEncodedUtf8 (v : String) : String :=
  String.mk ((v.data.flatMap fun c => utf8Octets c.toNat).flatMap fun b =>
    if uriUnescaped b then [Char.ofNat b] else percentEscape b)

/-! ## Data model -/

/-- An entry of `options.searchParameters`: the attribute name and the name of the
field that carries it in a submission. -/
structure Parameter where
  name : String
  submit : String
  deriving DecidableEq, Repr

/-- The array literal `options.searchParameters` (lines 18 to 27 of `index.js`).  The
literal is closed by the bracket on line 27, after the `username` entry; the text
`name: 'emailhash'` on line 28 stands behind that bracket and is no element of
the array. -/
def searchParameters : List Parameter :=
  [⟨"ip", "ip_addr"⟩, ⟨"email", "email"⟩, ⟨"username", "username"⟩]

/-- The mutable module state `options`: the stored API key. -/
structure Options where
  apiKey : JsVal
  deriving DecidableEq, Repr

/-- The state the module starts in: `apiKey: ''`. -/
def initialOptions : Options := ⟨.str ""⟩

/-- A user object: each attribute is a string or absent (`undefined`). -/
structure UserObject where
  ip : Option String := none
  email : Option String := none
  username : Option String := none
  emailhash : Option String := none
  deriving DecidableEq, Repr

/-- The property read `userObject[name]`. -/
def UserObject.get (userObject : UserObject) (name : String) : Option String :=
  if name = "ip" then userObject.ip
  else if name = "email" then userObject.email
  else if name = "username" then userObject.username
  else if name = "emailhash" then userObject.emailhash
  else none

/-- The boolean `!!v` of an attribute or of the evidence: present and not the empty string. -/
def strTruthy : Option String → Bool
  | none => false
  | some v => decide (v ≠ "")

/-- A form object: its fields in insertion order. -/
abbrev Form := List (String × JsVal)

/-- The assignment `form[name] = v`: an existing field is overwritten in place, a
new one is added at the end. -/
def setField (form : Form) (name : String) (v : JsVal) : Form :=
  if form.any (fun p => decide (p.1 = name)) then
    form.map (fun p => if p.1 = name then (name, v) else p)
  else form ++ [(name, v)]

/-- The argument of `request.post`: the URL and the form. -/
structure Request where
  url : String
  form : Form
  deriving DecidableEq, Repr

/-- What the HTTP client hands to the response handler: an error, or a response
with its status code and body text. -/
inductive TransportResult where
  | failure (error : JsError)
  | response (statusCode : Nat) (body : String)
  deriving DecidableEq, Repr

/-- The argument a callback is invoked with: an error, a boolean, or a parsed body. -/
inductive CallbackArg where
  | error (e : JsError)
  | bool (b : Bool)
  | body (j : Json)
  deriving Repr

/-- What one call did: the requests handed to `request.post`, the arguments the
callback was invoked with (in order), and the exception that left the response
handler uncaught, if any. -/
structure Outcome where
  posts : List Request
  calls : List CallbackArg
  thrown : Option JsError
  deriving Repr

/-! ## Operations -/

/-- The test `!!x && !valid(x)` that guards each `throw` of `sfs.user`. -/
def failsCheck (valid : String → Bool) : Option String → Bool
  | some v => decide (v ≠ "") && !valid v
  | none => false

/-- The text an attribute contributes to a string concatenation. -/
def attributeText : Option String → String
  | some v => v
  | none => "undefined"

/-- The function `sfs.user`.  The three predicates of the `validator` package are
parameters.  A `throw` is the `error` result, the returned object the `ok` result. -/
def user (isEmail isIP : String → Bool) (isHash : String → String → Bool)
    (userObject : UserObject) : Except JsError UserObject :=
  if failsCheck isEmail userObject.email then
    .error (newError ("The email address is not a valid email address " ++
      attributeText userObject.email))
  else if failsCheck isIP userObject.ip then
    .error (newError ("The IP address is not a valid IP address " ++
      attributeText userObject.ip))
  else if failsCheck (fun v => isHash v "md5") userObject.emailhash then
    .error (newError ("The email hash is not a valid MD5 hash " ++
      attributeText userObject.emailhash))
  else .ok userObject

/-- The first `forEach` of `sfs.isSpammer` (lines 95 to 99), run on the initial
form with the fields `json: true` and `nobadusername: true`. -/
def lookupForm (userObject : UserObject) : Form :=
  searchParameters.foldl
    (fun form parameter =>
      match userObject.get parameter.name with
      | some v => if v ≠ "" then setField form parameter.name (.str (encodeField v)) else form
      | none => form)
    [("json", .bool true), ("nobadusername", .bool true)]

/-- The request `sfs.isSpammer` posts. -/
def lookupRequest (userObject : UserObject) : Request :=
  ⟨"https://api.stopforumspam.org/api", lookupForm userObject⟩

/-- The second `forEach` of `sfs.isSpammer` (lines 111 to 115) over the remaining
parameters, with the current value of `result`.  The property read
`jsBody[parameter.name]` happens only when the attribute of the user object is
truthy; an exception it or `JSON.parse` throws ends the loop. -/
def verdictLoop (parse : String → Except JsError Json) (userObject : UserObject)
    (body : String) (jsBody : Json) : List Parameter → CallbackArg → Except JsError CallbackArg
  | [], result => .ok result
  | parameter :: rest, result =>
    if strTruthy (userObject.get parameter.name) then
      match jsBody.getProp parameter.name with
      | .error e => .error e
      | .ok property =>
        if propTruthy property then
          match parse body with
          | .error e => .error e
          | .ok parsed => verdictLoop parse userObject body jsBody rest (.body parsed)
        else verdictLoop parse userObject body jsBody rest result
    else verdictLoop parse userObject body jsBody rest result

/-- The response handler of `sfs.isSpammer` (lines 101 to 117): the callback
invocations it makes and the exception that leaves it. -/
def lookupHandler (parse : String → Except JsError Json) (userObject : UserObject) :
    TransportResult → List CallbackArg × Option JsError
  | .failure error => ([.error error], none)
  | .response statusCode body =>
    if statusCode ≠ 200 then
      ([.error (newError ("Response Status: " ++ toString statusCode ++ ", " ++ body))], none)
    else
      match parse body with
      | .error e => ([], some e)
      | .ok jsBody =>
        match verdictLoop parse userObject body jsBody searchParameters (.bool false) with
        | .error e => ([], some e)
        | .ok result => ([result], none)

/-- The function `sfs.isSpammer`, with `JSON.parse` and the HTTP client as parameters. -/
def isSpammer (parse : String → Except JsError Json) (transport : Request → TransportResult)
    (userObject : UserObject) : Outcome :=
  let handled := lookupHandler parse userObject (transport (lookupRequest userObject))
  ⟨[lookupRequest userObject], handled.1, handled.2⟩

/-- The `forEach` of `sfs.submit` (lines 154 to 163): the pair of the `error` flag
and the form, started from `false` and the form with the one field
`api_key: options.apiKey`. -/
def submitForm (options : Options) (userObject : UserObject) : Bool × Form :=
  searchParameters.foldl
    (fun state parameter =>
      if parameter.name ≠ "emailhash" then
        match userObject.get parameter.name with
        | some v =>
          if v ≠ "" then (state.1, setField state.2 parameter.submit (.str (encodeField v)))
          else (true, state.2)
        | none => (true, state.2)
      else state)
    (false, [("api_key", options.apiKey)])

/-- The response handler of `sfs.submit` (lines 174 to 183). -/
def submitHandler : TransportResult → CallbackArg
  | .failure error => .error error
  | .response statusCode body =>
    if statusCode ≠ 200 then
      .error (newError ("Response Status: " ++ toString statusCode ++ ", " ++ body))
    else .bool true

/-- The function `sfs.submit`, with the HTTP client as a parameter; `evidence` is a
string or absent. -/
def submit (options : Options) (transport : Request → TransportResult)
    (userObject : UserObject) (evidence : Option String) : Outcome :=
  if !options.apiKey.truthy then
    ⟨[], [.error (newError "You cannot submit spammers without an API Key.")], none⟩
  else
    let state := submitForm options userObject
    if state.1 then
      ⟨[], [.error (newError
        "You must have all search parameters for StopForumSpam.com to accept your submission.")],
        none⟩
    else
      let form := match evidence with
        | some e => if e ≠ "" then setField state.2 "evidence" (.str (encodeField e)) else state.2
        | none => state.2
      let request : Request := ⟨"https://www.stopforumspam.com/add", form⟩
      ⟨[request], [submitHandler (transport request)], none⟩

/-- The function `sfs.key`: the value returned and the state left behind.  A call
without argument passes `undefined`. -/
def key (k : JsVal) (options : Options) : JsVal × Options :=
  let stored : Options := if k ≠ .undefined then ⟨k⟩ else options
  (stored.apiKey, stored)


/-- The test of line 112, `!!userObject[name] && !!jsBody[name]`, where the property
read does not throw. -/
def attributeMatches (userObject : UserObject) (jsBody : Json) (name : String) : Bool :=
  strTruthy (userObject.get name) &&
    (match jsBody.getProp name with
      | .ok property => propTruthy property
      | .error _ => false)

/-- The text of a response that reports the queried `username`. -/
def reportText : String :=
  "\x7b\"success\":1,\"username\":\x7b\"lastseen\":\"2015-03-09 15:22:49\",\"frequency\":3830,\"appears\":1\x7d\x7d"

/-- The value `JSON.parse` gives for `reportText`. -/
def reportJson : Json :=
  .obj [("success", .num 1),
    ("username", .obj [("lastseen", .str "2015-03-09 15:22:49"), ("frequency", .num 3830),
      ("appears", .num 1)])]

/-- A finite table of `JSON.parse`: the value of three texts; every other text is
rejected with a `SyntaxError`. -/
def sampleParse (text : String) : Except JsError Json :=
  if text = reportText then .ok reportJson
  else if text = "\x7b\"success\":1\x7d" then .ok (.obj [("success", .num 1)])
  else if text = "null" then .ok .null
  else .error ⟨"SyntaxError", "Unexpected token in JSON"⟩

/-! ## Closed forms of the request builders -/

theorem lookupForm_eq (u : UserObject) :
    lookupForm u =
      [("json", .bool true), ("nobadusername", .bool true)] ++
      (if strTruthy u.ip then [("ip", JsVal.str (encodeField (attributeText u.ip)))] else []) ++
      (if strTruthy u.email then [("email", JsVal.str (encodeField (attributeText u.email)))] else []) ++
      (if strTruthy u.username then
        [("username", JsVal.str (encodeField (attributeText u.username)))] else []) := by
  obtain ⟨ip, email, username, emailhash⟩ := u
  rcases ip with _ | ip <;> rcases email with _ | email <;> rcases username with _ | username <;>
    simp [lookupForm, searchParameters, UserObject.get, strTruthy, attributeText, setField] <;>
    split_ifs <;> simp_all +decide


theorem submitForm_eq (o : Options) (u : UserObject) :
    submitForm o u =
      (!(strTruthy u.ip && strTruthy u.email && strTruthy u.username),
        [("api_key", o.apiKey)] ++
        (if strTruthy u.ip then [("ip_addr", JsVal.str (encodeField (attributeText u.ip)))]
          else []) ++
        (if strTruthy u.email then [("email", JsVal.str (encodeField (attributeText u.email)))]
          else []) ++
        (if strTruthy u.username then
          [("username", JsVal.str (encodeField (attributeText u.username)))] else [])) := by
  obtain ⟨ip, email, username, emailhash⟩ := u
  rcases ip with _ | ip <;> rcases email with _ | email <;> rcases username with _ | username <;>
    simp [submitForm, searchParameters, UserObject.get, strTruthy, attributeText, setField] <;>
    split_ifs <;> simp_all +decide

/-- C1. When the stored API key is falsy (the empty string, `false`, `0`, `null`,
`NaN`), `submit` invokes the callback once, with the error `You cannot submit
spammers without an API Key.`, and hands no request to the transport, whatever
the user object, the evidence and the transport are. -/
theorem submit_without_key (o : Options) (transport : Request → TransportResult)
    (u : UserObject) (evidence : Option String) (hkey : o.apiKey.truthy = false) :
    submit o transport u evidence =
      ⟨[], [.error (newError "You cannot submit spammers without an API Key.")], none⟩ := by
  simp [submit, hkey]

theorem submit_without_key_witness :
    initialOptions.apiKey.truthy = false ∧
    submit initialOptions (fun _ => .response 200 "ok")
        ⟨some "123.45.67.89", some "test@test.com", some "Spammer!", none⟩ (some "Caught You!") =
      ⟨[], [.error (newError "You cannot submit spammers without an API Key.")], none⟩ :=
  ⟨by decide, submit_without_key initialOptions (fun _ => .response 200 "ok")
    ⟨some "123.45.67.89", some "test@test.com", some "Spammer!", none⟩ (some "Caught You!")
    (by decide)⟩


theorem submit_eq_of_key (o : Options) (transport : Request → TransportResult)
    (u : UserObject) (evidence : Option String) (hkey : o.apiKey.truthy = true) :
    submit o transport u evidence =
      if strTruthy u.ip && strTruthy u.email && strTruthy u.username then
        ⟨[⟨"https://www.stopforumspam.com/add",
            [("api_key", o.apiKey),
              ("ip_addr", JsVal.str (encodeField (attributeText u.ip))),
              ("email", JsVal.str (encodeField (attributeText u.email))),
              ("username", JsVal.str (encodeField (attributeText u.username)))] ++
            (if strTruthy evidence then
              [("evidence", JsVal.str (encodeField (attributeText evidence)))] else [])⟩],
          [submitHandler (transport ⟨"https://www.stopforumspam.com/add",
            [("api_key", o.apiKey),
              ("ip_addr", JsVal.str (encodeField (attributeText u.ip))),
              ("email", JsVal.str (encodeField (attributeText u.email))),
              ("username", JsVal.str (encodeField (attributeText u.username)))] ++
            (if strTruthy evidence then
              [("evidence", JsVal.str (encodeField (attributeText evidence)))] else [])⟩)],
          none⟩
      else ⟨[], [.error (newError
        "You must have all search parameters for StopForumSpam.com to accept your submission.")],
        none⟩ := by
  unfold submit
  simp only [hkey, submitForm_eq]
  by_cases hip : strTruthy u.ip = true <;> by_cases hemail : strTruthy u.email = true <;>
    by_cases hname : strTruthy u.username = true <;>
    simp [hip, hemail, hname]
  rcases evidence with _ | e
  · simp [strTruthy]
  · by_cases he : e = "" <;> simp [strTruthy, he, setField, attributeText]


/-- C2. With a truthy API key: `submit` delivers the incomplete-record error and
posts nothing exactly when one of `ip`, `email`, `username` is absent or empty;
when all three are non-empty the request is posted and the callback receives
what the response handler makes of the transport result; and the outcome does
not depend on `emailhash`.  No validator takes part in `submit`. -/
theorem submit_incomplete_iff (o : Options) (transport : Request → TransportResult)
    (u : UserObject) (evidence : Option String) (hkey : o.apiKey.truthy = true) :
    (submit o transport u evidence =
        ⟨[], [.error (newError
          "You must have all search parameters for StopForumSpam.com to accept your submission.")],
          none⟩ ↔
      (strTruthy u.ip = false ∨ strTruthy u.email = false ∨ strTruthy u.username = false)) ∧
    (strTruthy u.ip = true ∧ strTruthy u.email = true ∧ strTruthy u.username = true →
      ∃ request, submit o transport u evidence =
        ⟨[request], [submitHandler (transport request)], none⟩) ∧
    (∀ emailhash : Option String,
      submit o transport ⟨u.ip, u.email, u.username, emailhash⟩ evidence =
        submit o transport u evidence) := by
  refine ⟨?_, ?_, ?_⟩
  · rw [submit_eq_of_key o transport u evidence hkey]
    by_cases hip : strTruthy u.ip = true <;> by_cases hemail : strTruthy u.email = true <;>
      by_cases hname : strTruthy u.username = true <;>
      simp [hip, hemail, hname]
  · rintro ⟨hip, hemail, hname⟩
    rw [submit_eq_of_key o transport u evidence hkey]
    simp [hip, hemail, hname]
  · intro emailhash
    rw [submit_eq_of_key o transport u evidence hkey, submit_eq_of_key o transport _ evidence hkey]

theorem submit_incomplete_iff_witness :
    JsVal.truthy (.str "abc") = true ∧
    submit ⟨.str "abc"⟩ (fun _ => .response 200 "ok")
        ⟨some "123.45.67.89", some "test@test.com", none, none⟩ (some "Caught You!") =
      ⟨[], [.error (newError
        "You must have all search parameters for StopForumSpam.com to accept your submission.")],
        none⟩ :=
  ⟨by decide, (submit_incomplete_iff ⟨.str "abc"⟩ (fun _ => .response 200 "ok")
    ⟨some "123.45.67.89", some "test@test.com", none, none⟩ (some "Caught You!")
    (by decide)).1.2 (by decide)⟩

/-- C6. For a user object with non-empty `ip`, `email` and `username`, a truthy
API key and any evidence, `submit` posts exactly one request, to
`https://www.stopforumspam.com/add`, whose form holds `api_key` (the stored
key), `ip_addr`, `email` and `username` (the encoded attributes) and, exactly
when the evidence is supplied and non-empty, `evidence` (the encoded evidence),
and no other field; the request is the same for every value of `emailhash`. -/
theorem submit_request (o : Options) (transport : Request → TransportResult)
    (ip email username : String) (emailhash evidence : Option String)
    (hkey : o.apiKey.truthy = true) (hip : ip ≠ "") (hemail : email ≠ "")
    (hname : username ≠ "") :
    (submit o transport ⟨some ip, some email, some username, emailhash⟩ evidence).posts =
      [⟨"https://www.stopforumspam.com/add",
        [("api_key", o.apiKey), ("ip_addr", .str (encodeField ip)),
          ("email", .str (encodeField email)), ("username", .str (encodeField username))] ++
        (match evidence with
          | some e => if e ≠ "" then [("evidence", .str (encodeField e))] else []
          | none => [])⟩] ∧
    ∀ other : Option String,
      (submit o transport ⟨some ip, some email, some username, other⟩ evidence).posts =
        (submit o transport ⟨some ip, some email, some username, emailhash⟩ evidence).posts := by
  constructor
  · rw [submit_eq_of_key o transport _ evidence hkey]
    rcases evidence with _ | e
    · simp [strTruthy, hip, hemail, hname, attributeText]
    · by_cases he : e = "" <;> simp [strTruthy, hip, hemail, hname, attributeText, he]
  · intro other
    rw [submit_eq_of_key o transport _ evidence hkey, submit_eq_of_key o transport _ evidence hkey]

theorem submit_request_witness :
    (JsVal.truthy (.str "abc") = true ∧ "123.45.67.89" ≠ "" ∧ "test@test.com" ≠ "" ∧
      "Spammer!" ≠ "") ∧
    (submit ⟨.str "abc"⟩ (fun _ => .response 200 "ok")
        ⟨some "123.45.67.89", some "test@test.com", some "Spammer!",
          some "b642b4217b34b1e8d3bd915fc65c4452"⟩ (some "Caught You!")).posts =
      [⟨"https://www.stopforumspam.com/add",
        [("api_key", .str "abc"), ("ip_addr", .str "123.45.67.89"),
          ("email", .str "test%40test.com"), ("username", .str "Spammer!"),
          ("evidence", .str "Caught%20You!")]⟩] :=
  ⟨by decide, (submit_request ⟨.str "abc"⟩ (fun _ => .response 200 "ok")
    "123.45.67.89" "test@test.com" "Spammer!" (some "b642b4217b34b1e8d3bd915fc65c4452")
    (some "Caught You!") (by decide) (by decide) (by decide) (by decide)).1.trans (by decide)⟩

/-- C7. For a transport that answers with a status code and a body: `submit` (key
set, complete record) invokes its callback with `true` exactly when the status
is 200, and for every other status both `submit` and `isSpammer` invoke their
callback once, with an error whose message holds the status code and the raw
body; `isSpammer` does so whatever `JSON.parse` would make of the body. -/
theorem remote_status (o : Options) (u : UserObject) (evidence : Option String)
    (statusCode : Nat) (body : String) (parse : String → Except JsError Json)
    (queried : UserObject) (hkey : o.apiKey.truthy = true)
    (hcomplete : strTruthy u.ip = true ∧ strTruthy u.email = true ∧ strTruthy u.username = true) :
    ((submit o (fun _ => .response statusCode body) u evidence).calls = [.bool true] ↔
      statusCode = 200) ∧
    (statusCode ≠ 200 →
      (submit o (fun _ => .response statusCode body) u evidence).calls =
        [.error (newError ("Response Status: " ++ toString statusCode ++ ", " ++ body))] ∧
      (submit o (fun _ => .response statusCode body) u evidence).thrown = none ∧
      (isSpammer parse (fun _ => .response statusCode body) queried).calls =
        [.error (newError ("Response Status: " ++ toString statusCode ++ ", " ++ body))] ∧
      (isSpammer parse (fun _ => .response statusCode body) queried).thrown = none) := by
  obtain ⟨hip, hemail, hname⟩ := hcomplete
  rw [submit_eq_of_key o _ u evidence hkey]
  by_cases hs : statusCode = 200
  · simp [hip, hemail, hname, submitHandler, hs]
  · simp [hip, hemail, hname, submitHandler, hs, isSpammer, lookupHandler]

theorem remote_status_witness :
    (JsVal.truthy (.str "abc") = true ∧ (500 : Nat) ≠ 200) ∧
    (submit ⟨.str "abc"⟩ (fun _ => .response 500 "Internal Server Error")
        ⟨some "123.45.67.89", some "test@test.com", some "Spammer!", none⟩ none).calls =
      [.error (newError "Response Status: 500, Internal Server Error")] ∧
    (isSpammer (fun _ => .ok .null) (fun _ => .response 500 "Internal Server Error")
        ⟨none, none, some "Spammer!", none⟩).calls =
      [.error (newError "Response Status: 500, Internal Server Error")] :=
  ⟨by decide,
    ((remote_status ⟨.str "abc"⟩ ⟨some "123.45.67.89", some "test@test.com", some "Spammer!", none⟩
      none 500 "Internal Server Error" (fun _ => .ok .null) ⟨none, none, some "Spammer!", none⟩
      (by decide) (by decide)).2 (by decide)).1,
    ((remote_status ⟨.str "abc"⟩ ⟨some "123.45.67.89", some "test@test.com", some "Spammer!", none⟩
      none 500 "Internal Server Error" (fun _ => .ok .null) ⟨none, none, some "Spammer!", none⟩
      (by decide) (by decide)).2 (by decide)).2.2.1⟩


/-- C8 (counterexample). After `key(false)` the getter returns the boolean `false`,
which is not the empty string. -/
theorem key_false_is_returned :
    (key .undefined (key (.bool false) initialOptions).2).1 = .bool false ∧
    (key .undefined (key (.bool false) initialOptions).2).1 ≠ .str "" := by
  decide

/-- C8 (amended). `key(k)` with a supplied `k` stores `k` and returns it; `key()`
returns the stored value and leaves it unchanged; the initial key is the empty
string; after `key('abc')` and `key('')` the getter returns the empty string and
`submit` delivers the missing-key error; the getter returns the stored value as
it was set, so after `key(false)` it returns `false`, and `submit` delivers the
missing-key error then too. -/
theorem key_accessor (k : JsVal) (o : Options) (hk : k ≠ .undefined) :
    key k o = (k, ⟨k⟩) ∧
    key .undefined (key k o).2 = (k, (key k o).2) ∧
    key .undefined o = (o.apiKey, o) ∧
    initialOptions.apiKey = .str "" ∧
    (key .undefined (key (.str "") (key (.str "abc") o).2).2).1 = .str "" ∧
    (∀ (transport : Request → TransportResult) (u : UserObject) (evidence : Option String),
      submit (key .undefined (key (.str "") (key (.str "abc") o).2).2).2 transport u evidence =
        ⟨[], [.error (newError "You cannot submit spammers without an API Key.")], none⟩) ∧
    (key .undefined (key (.bool false) o).2).1 = .bool false ∧
    (∀ (transport : Request → TransportResult) (u : UserObject) (evidence : Option String),
      submit (key .undefined (key (.bool false) o).2).2 transport u evidence =
        ⟨[], [.error (newError "You cannot submit spammers without an API Key.")], none⟩) := by
  refine ⟨by simp [key, hk], by simp [key, hk], by simp [key], rfl, by simp [key], ?_,
    by simp [key], ?_⟩
  · intro transport u evidence
    simp [key, submit, JsVal.truthy]
  · intro transport u evidence
    simp [key, submit, JsVal.truthy]

theorem key_accessor_witness :
    JsVal.str "abc" ≠ .undefined ∧
    key (.str "abc") initialOptions = (.str "abc", ⟨.str "abc"⟩) ∧
    key .undefined (key (.str "abc") initialOptions).2 = (.str "abc", ⟨.str "abc"⟩) :=
  ⟨by decide, (key_accessor (.str "abc") initialOptions (by decide)).1,
    (key_accessor (.str "abc") initialOptions (by decide)).2.1⟩

/-- C9 (counterexample). With an email predicate that rejects the empty string,
`user` returns an object whose `email` is present and empty: a present value
that does not pass its predicate. -/
theorem user_keeps_empty_email :
    user (fun v => decide (v = "test@test.com")) (fun v => decide (v = "123.45.67.89"))
        (fun v _ => decide (v = "b642b4217b34b1e8d3bd915fc65c4452"))
        ⟨none, some "", none, none⟩ = .ok ⟨none, some "", none, none⟩ ∧
    (fun v => decide (v = "test@test.com")) "" = false :=
  ⟨rfl, rfl⟩


theorem failsCheck_iff (valid : String → Bool) (x : Option String) :
    failsCheck valid x = true ↔ ∃ v, x = some v ∧ v ≠ "" ∧ valid v = false := by
  rcases x with _ | v <;> simp [failsCheck]

/-- C9 (amended). `user` throws exactly when one of `email`, `ip`, `emailhash` is
present, non-empty and rejected by its predicate; the message of the error then
names such a field and ends in its value; otherwise `user` returns the object it
was given, unchanged; `username` plays no part in the outcome; and every
non-empty `email`, `ip` and `emailhash` of a returned object passes its
predicate. -/
theorem user_validation (isEmail isIP : String → Bool) (isHash : String → String → Bool)
    (u : UserObject) :
    ((∃ e, user isEmail isIP isHash u = .error e) ↔
      ((∃ v, u.email = some v ∧ v ≠ "" ∧ isEmail v = false) ∨
        (∃ v, u.ip = some v ∧ v ≠ "" ∧ isIP v = false) ∨
        (∃ v, u.emailhash = some v ∧ v ≠ "" ∧ isHash v "md5" = false))) ∧
    (∀ e, user isEmail isIP isHash u = .error e →
      ((∃ v, u.email = some v ∧ v ≠ "" ∧ isEmail v = false ∧
          e = newError ("The email address is not a valid email address " ++ v)) ∨
        (∃ v, u.ip = some v ∧ v ≠ "" ∧ isIP v = false ∧
          e = newError ("The IP address is not a valid IP address " ++ v)) ∨
        (∃ v, u.emailhash = some v ∧ v ≠ "" ∧ isHash v "md5" = false ∧
          e = newError ("The email hash is not a valid MD5 hash " ++ v)))) ∧
    ((¬ ∃ e, user isEmail isIP isHash u = .error e) → user isEmail isIP isHash u = .ok u) ∧
    (∀ name : Option String,
      user isEmail isIP isHash ⟨u.ip, u.email, name, u.emailhash⟩ =
        (user isEmail isIP isHash u).map fun r => ⟨r.ip, r.email, name, r.emailhash⟩) ∧
    (∀ r, user isEmail isIP isHash u = .ok r →
      r = u ∧
      (∀ v, r.email = some v → v ≠ "" → isEmail v = true) ∧
      (∀ v, r.ip = some v → v ≠ "" → isIP v = true) ∧
      (∀ v, r.emailhash = some v → v ≠ "" → isHash v "md5" = true)) := by
  have hE := failsCheck_iff isEmail u.email
  have hI := failsCheck_iff isIP u.ip
  have hH := failsCheck_iff (fun v => isHash v "md5") u.emailhash
  have hname : ∀ name : Option String,
      user isEmail isIP isHash ⟨u.ip, u.email, name, u.emailhash⟩ =
        (user isEmail isIP isHash u).map fun r => ⟨r.ip, r.email, name, r.emailhash⟩ := by
    intro name
    unfold user
    split_ifs <;> rfl
  by_cases cE : failsCheck isEmail u.email = true
  · obtain ⟨v, hv, hne, hrej⟩ := hE.1 cE
    have hval : user isEmail isIP isHash u =
        .error (newError ("The email address is not a valid email address " ++ v)) := by
      unfold user
      rw [if_pos cE, hv]
      rfl
    refine ⟨?_, ?_, ?_, hname, ?_⟩
    · exact ⟨fun _ => Or.inl ⟨v, hv, hne, hrej⟩, fun _ => ⟨_, hval⟩⟩
    · intro e he
      rw [hval] at he
      exact Or.inl ⟨v, hv, hne, hrej, (Except.error.inj he).symm⟩
    · intro h
      exact absurd ⟨_, hval⟩ h
    · intro r hr
      rw [hval] at hr
      cases hr
  · by_cases cI : failsCheck isIP u.ip = true
    · obtain ⟨v, hv, hne, hrej⟩ := hI.1 cI
      have hval : user isEmail isIP isHash u =
          .error (newError ("The IP address is not a valid IP address " ++ v)) := by
        unfold user
        rw [if_neg cE, if_pos cI, hv]
        rfl
      refine ⟨?_, ?_, ?_, hname, ?_⟩
      · exact ⟨fun _ => Or.inr (Or.inl ⟨v, hv, hne, hrej⟩), fun _ => ⟨_, hval⟩⟩
      · intro e he
        rw [hval] at he
        exact Or.inr (Or.inl ⟨v, hv, hne, hrej, (Except.error.inj he).symm⟩)
      · intro h
        exact absurd ⟨_, hval⟩ h
      · intro r hr
        rw [hval] at hr
        cases hr
    · by_cases cH : failsCheck (fun v => isHash v "md5") u.emailhash = true
      · obtain ⟨v, hv, hne, hrej⟩ := hH.1 cH
        have hval : user isEmail isIP isHash u =
            .error (newError ("The email hash is not a valid MD5 hash " ++ v)) := by
          unfold user
          rw [if_neg cE, if_neg cI, if_pos cH, hv]
          rfl
        refine ⟨?_, ?_, ?_, hname, ?_⟩
        · exact ⟨fun _ => Or.inr (Or.inr ⟨v, hv, hne, hrej⟩), fun _ => ⟨_, hval⟩⟩
        · intro e he
          rw [hval] at he
          exact Or.inr (Or.inr ⟨v, hv, hne, hrej, (Except.error.inj he).symm⟩)
        · intro h
          exact absurd ⟨_, hval⟩ h
        · intro r hr
          rw [hval] at hr
          cases hr
      · have hok : user isEmail isIP isHash u = .ok u := by simp [user, cE, cI, cH]
        have nE := fun h => cE (hE.2 h)
        have nI := fun h => cI (hI.2 h)
        have nH := fun h => cH (hH.2 h)
        refine ⟨?_, ?_, ?_, hname, ?_⟩
        · rw [hok]
          constructor
          · rintro ⟨e, he⟩
            cases he
          · rintro (h | h | h)
            · exact absurd h nE
            · exact absurd h nI
            · exact absurd h nH
        · intro e he
          rw [hok] at he
          cases he
        · intro _
          exact hok
        · intro r hr
          rw [hok] at hr
          cases hr
          refine ⟨rfl, ?_, ?_, ?_⟩
          · intro v hv hne
            by_contra hc
            exact nE ⟨v, hv, hne, by simpa using hc⟩
          · intro v hv hne
            by_contra hc
            exact nI ⟨v, hv, hne, by simpa using hc⟩
          · intro v hv hne
            by_contra hc
            exact nH ⟨v, hv, hne, by simpa using hc⟩


theorem user_validation_witness :
    user (fun v => decide (v = "test@test.com")) (fun v => decide (v = "123.45.67.89"))
        (fun v _ => decide (v = "b642b4217b34b1e8d3bd915fc65c4452"))
        ⟨some "123.45.67.89", some "test@test.com", none, none⟩ =
      .ok ⟨some "123.45.67.89", some "test@test.com", none, none⟩ ∧
    ∃ e, user (fun v => decide (v = "test@test.com")) (fun v => decide (v = "123.45.67.89"))
        (fun v _ => decide (v = "b642b4217b34b1e8d3bd915fc65c4452"))
        ⟨none, some "not-an-email", none, none⟩ = .error e :=
  ⟨(user_validation (fun v => decide (v = "test@test.com"))
      (fun v => decide (v = "123.45.67.89"))
      (fun v _ => decide (v = "b642b4217b34b1e8d3bd915fc65c4452"))
      ⟨some "123.45.67.89", some "test@test.com", none, none⟩).2.2.1
      (by rintro ⟨e, he⟩; cases he),
    (user_validation (fun v => decide (v = "test@test.com"))
      (fun v => decide (v = "123.45.67.89"))
      (fun v _ => decide (v = "b642b4217b34b1e8d3bd915fc65c4452"))
      ⟨none, some "not-an-email", none, none⟩).1.2
      (Or.inl ⟨"not-an-email", rfl, by decide, rfl⟩)⟩

theorem getProp_of_ne_null (j : Json) (hj : j ≠ .null) (name : String) :
    ∃ p, j.getProp name = .ok p := by
  cases j <;> simp [Json.getProp] at *

theorem verdictLoop_eq (parse : String → Except JsError Json) (u : UserObject) (body : String)
    (j : Json) (hparse : parse body = .ok j) (hj : j ≠ .null) :
    ∀ (parameters : List Parameter) (result : CallbackArg),
      verdictLoop parse u body j parameters result =
        .ok (if parameters.any (fun p => attributeMatches u j p.name) then .body j else result) := by
  intro parameters
  induction parameters with
  | nil => intro result; simp [verdictLoop]
  | cons p rest ih =>
    intro result
    obtain ⟨q, hq⟩ := getProp_of_ne_null j hj p.name
    by_cases h1 : strTruthy (u.get p.name) = true <;> by_cases h2 : propTruthy q = true <;>
      simp [verdictLoop, attributeMatches, h1, h2, hq, hparse, ih]

theorem isSpammer_of_parsed (parse : String → Except JsError Json)
    (transport : Request → TransportResult) (u : UserObject) (body : String) (j : Json)
    (hresp : transport (lookupRequest u) = .response 200 body) (hparse : parse body = .ok j)
    (hj : j ≠ .null ∨
      (strTruthy u.ip = false ∧ strTruthy u.email = false ∧ strTruthy u.username = false)) :
    isSpammer parse transport u =
      ⟨[lookupRequest u],
        [if searchParameters.any (fun p => attributeMatches u j p.name) then .body j
          else .bool false], none⟩ := by
  rcases hj with hj | ⟨h1, h2, h3⟩
  · simp [isSpammer, lookupHandler, hresp, hparse, verdictLoop_eq parse u body j hparse hj]
  · simp [isSpammer, lookupHandler, hresp, hparse, verdictLoop, searchParameters,
      UserObject.get, attributeMatches, h1, h2, h3]

/-- C3 (counterexample). The body `null` parses as JSON; for a query with a non-empty
`ip` the property read on it throws a `TypeError`, and the callback is never
invoked: the call does not resolve to `false`. -/
theorem lookup_null_body_throws :
    sampleParse "null" = .ok .null ∧
    (isSpammer sampleParse (fun _ => .response 200 "null")
        ⟨some "123.45.67.89", none, none, none⟩).calls = [] ∧
    (isSpammer sampleParse (fun _ => .response 200 "null")
        ⟨some "123.45.67.89", none, none, none⟩).thrown =
      some ⟨"TypeError", "Cannot read properties of null (reading 'ip')"⟩ :=
  ⟨rfl, rfl, rfl⟩

/-- C3 (amended). For a user object without a non-empty `emailhash` and a response
with status 200 whose body parses to a JSON value other than `null` (or to any
JSON value, when none of `ip`, `email`, `username` is non-empty in the user
object), `isSpammer` throws nothing and invokes its callback once: with the
whole parsed body if one of `ip`, `email`, `username`, `emailhash` is non-empty
in the user object and truthy under the same name in the parsed body, and with
`false` otherwise. -/
theorem lookup_verdict (parse : String → Except JsError Json)
    (transport : Request → TransportResult) (u : UserObject) (body : String) (j : Json)
    (hresp : transport (lookupRequest u) = .response 200 body) (hparse : parse body = .ok j)
    (hj : j ≠ .null ∨
      (strTruthy u.ip = false ∧ strTruthy u.email = false ∧ strTruthy u.username = false))
    (hhash : strTruthy u.emailhash = false) :
    (isSpammer parse transport u).thrown = none ∧
    ((∃ name ∈ ["ip", "email", "username", "emailhash"], attributeMatches u j name = true) →
      (isSpammer parse transport u).calls = [.body j]) ∧
    ((¬ ∃ name ∈ ["ip", "email", "username", "emailhash"], attributeMatches u j name = true) →
      (isSpammer parse transport u).calls = [.bool false]) := by
  rw [isSpammer_of_parsed parse transport u body j hresp hparse hj]
  have hnot : attributeMatches u j "emailhash" = false := by
    simp [attributeMatches, UserObject.get, hhash]
  by_cases h : searchParameters.any (fun p => attributeMatches u j p.name) = true
  · refine ⟨rfl, fun _ => by simp [h], fun hno => absurd ?_ hno⟩
    simp only [searchParameters, List.any_cons, List.any_nil, Bool.or_false, Bool.or_eq_true] at h
    rcases h with h | h | h
    · exact ⟨"ip", by simp, h⟩
    · exact ⟨"email", by simp, h⟩
    · exact ⟨"username", by simp, h⟩
  · refine ⟨rfl, fun hyes => absurd ?_ h, fun _ => by simp [h]⟩
    obtain ⟨name, hmem, hm⟩ := hyes
    simp only [searchParameters, List.any_cons, List.any_nil, Bool.or_false, Bool.or_eq_true]
    simp only [List.mem_cons, List.mem_singleton, List.not_mem_nil, or_false] at hmem
    rcases hmem with rfl | rfl | rfl | rfl
    · exact Or.inl hm
    · exact Or.inr (Or.inl hm)
    · exact Or.inr (Or.inr hm)
    · rw [hnot] at hm
      cases hm

theorem lookup_verdict_witness :
    (sampleParse reportText = .ok reportJson ∧ reportJson ≠ .null ∧
      strTruthy (none : Option String) = false) ∧
    (isSpammer sampleParse (fun _ => .response 200 reportText)
        ⟨none, none, some "Spammer!", none⟩).calls = [.body reportJson] ∧
    (isSpammer sampleParse (fun _ => .response 200 "\x7b\"success\":1\x7d")
        ⟨none, none, some "Spammer!", none⟩).calls = [.bool false] :=
  ⟨⟨rfl, (by intro h; cases h), rfl⟩,
    (lookup_verdict sampleParse (fun _ => .response 200 reportText)
      ⟨none, none, some "Spammer!", none⟩ reportText reportJson rfl rfl
      (Or.inl (by intro h; cases h)) rfl).2.1 ⟨"username", by simp, rfl⟩,
    (lookup_verdict sampleParse (fun _ => .response 200 "\x7b\"success\":1\x7d")
      ⟨none, none, some "Spammer!", none⟩ "\x7b\"success\":1\x7d" (.obj [("success", .num 1)])
      rfl rfl (Or.inl (by intro h; cases h)) rfl).2.2 (by decide)⟩


/-- C10 (counterexample). With status 200 and a body that is not JSON the exception
of `JSON.parse` leaves the response handler and the callback is never invoked. -/
theorem lookup_malformed_body_throws :
    sampleParse "<html>" = .error ⟨"SyntaxError", "Unexpected token in JSON"⟩ ∧
    (isSpammer sampleParse (fun _ => .response 200 "<html>")
        ⟨none, none, some "Spammer!", none⟩).calls = [] ∧
    (isSpammer sampleParse (fun _ => .response 200 "<html>")
        ⟨none, none, some "Spammer!", none⟩).thrown =
      some ⟨"SyntaxError", "Unexpected token in JSON"⟩ :=
  ⟨rfl, rfl, rfl⟩

/-- C10 (amended). `isSpammer` posts exactly one request.  On a transport error, on
a status other than 200, and on status 200 with a body that parses to a JSON
value other than `null` (or to any JSON value, when no attribute of the user
object is non-empty), it invokes its callback exactly once and throws nothing.
On status 200 with a body that `JSON.parse` rejects, the callback is not invoked
and the exception of `JSON.parse` leaves the response handler. -/
theorem lookup_resolution (parse : String → Except JsError Json)
    (transport : Request → TransportResult) (u : UserObject) :
    (isSpammer parse transport u).posts = [lookupRequest u] ∧
    (∀ error, transport (lookupRequest u) = .failure error →
      (isSpammer parse transport u).calls = [.error error] ∧
      (isSpammer parse transport u).thrown = none) ∧
    (∀ statusCode body, transport (lookupRequest u) = .response statusCode body →
      statusCode ≠ 200 →
      (isSpammer parse transport u).calls =
        [.error (newError ("Response Status: " ++ toString statusCode ++ ", " ++ body))] ∧
      (isSpammer parse transport u).thrown = none) ∧
    (∀ body j, transport (lookupRequest u) = .response 200 body → parse body = .ok j →
      (j ≠ .null ∨
        (strTruthy u.ip = false ∧ strTruthy u.email = false ∧ strTruthy u.username = false ∧
          strTruthy u.emailhash = false)) →
      (isSpammer parse transport u).calls.length = 1 ∧
      (isSpammer parse transport u).thrown = none) ∧
    (∀ body e, transport (lookupRequest u) = .response 200 body → parse body = .error e →
      (isSpammer parse transport u).calls = [] ∧
      (isSpammer parse transport u).thrown = some e) := by
  refine ⟨rfl, ?_, ?_, ?_, ?_⟩
  · intro error h
    simp [isSpammer, lookupHandler, h]
  · intro statusCode body h hs
    simp [isSpammer, lookupHandler, h, hs]
  · intro body j h hparse hj
    rw [isSpammer_of_parsed parse transport u body j h hparse
      (hj.imp id fun hall => ⟨hall.1, hall.2.1, hall.2.2.1⟩)]
    simp
  · intro body e h hparse
    simp [isSpammer, lookupHandler, h, hparse]

theorem lookup_resolution_witness :
    (isSpammer sampleParse (fun _ => .response 200 reportText)
        ⟨none, none, some "Spammer!", none⟩).calls.length = 1 ∧
    (isSpammer sampleParse (fun _ => .failure ⟨"Error", "getaddrinfo ENOTFOUND"⟩)
        ⟨none, none, some "Spammer!", none⟩).calls =
      [.error ⟨"Error", "getaddrinfo ENOTFOUND"⟩] :=
  ⟨((lookup_resolution sampleParse (fun _ => .response 200 reportText)
      ⟨none, none, some "Spammer!", none⟩).2.2.2.1 reportText reportJson rfl rfl
      (Or.inl (by intro h; cases h))).1,
    ((lookup_resolution sampleParse (fun _ => .failure ⟨"Error", "getaddrinfo ENOTFOUND"⟩)
      ⟨none, none, some "Spammer!", none⟩).2.1 ⟨"Error", "getaddrinfo ENOTFOUND"⟩ rfl).1⟩

/-- C4 (the code at the failing input). The registry `isSpammer` enumerates holds
`ip`, `email` and `username` only, and the request for a user object that carries
only an `emailhash` has the two fixed flags and no `emailhash` field. -/
theorem lookup_omits_emailhash :
    searchParameters.map (fun p => p.name) = ["ip", "email", "username"] ∧
    (isSpammer sampleParse (fun _ => .response 200 "\x7b\"success\":1\x7d")
        ⟨none, none, none, some "b642b4217b34b1e8d3bd915fc65c4452"⟩).posts =
      [⟨"https://api.stopforumspam.org/api",
        [("json", .bool true), ("nobadusername", .bool true)]⟩] := by
  decide

theorem encode_ascii_chars (l : List Char) (h : ∀ c ∈ l, c.toNat < 128) :
    ((l.flatMap fun c => utf8Octets c.toNat).map Char.ofNat).flatMap encodeURIChar =
      (l.flatMap fun c => utf8Octets c.toNat).flatMap fun b =>
        if uriUnescaped b then [Char.ofNat b] else percentEscape b := by
  induction l with
  | nil => rfl
  | cons c rest ih =>
    have hc : c.toNat < 128 := h c (List.mem_cons_self c rest)
    have hrest := ih fun d hd => h d (List.mem_cons_of_mem c hd)
    have hoct : utf8Octets c.toNat = [c.toNat] := by simp [utf8Octets, hc]
    simp only [List.flatMap_cons, hoct, List.map_append, List.map_cons, List.map_nil,
      List.flatMap_append, List.flatMap_nil, List.append_nil, hrest, Char.ofNat_toNat]
    congr 1
    simp only [List.singleton_append, List.flatMap_cons, List.flatMap_nil, List.append_nil,
      encodeURIChar, hoct]

/-- For text of ASCII characters only, the field value is the percent-encoded form of
its UTF-8 octets. -/
theorem encodeField_ascii (v : String) (h : ∀ c ∈ v.data, c.toNat < 128) :
    encodeField v = percentEncodedUtf8 v := by
  simp only [encodeField, encodeURIComponent, utf8.encode, percentEncodedUtf8]
  rw [encode_ascii_chars v.data h]

/-- C5 (the code at the failing input). For the text `é`, whose UTF-8 octets are C3
A9, the field value is `%C3%83%C2%A9`: each octet is encoded a second time.  The
percent-encoded form of the UTF-8 octets is `%C3%A9`. -/
theorem encodeField_encodes_twice :
    encodeField "é" = "%C3%83%C2%A9" ∧ percentEncodedUtf8 "é" = "%C3%A9" := by
  decide

end StopForumSpam
